import Mathlib

/-!
Shallow embedding of `serve_playlists.py`: a CORS-augmented static file
server with startup validation and best-effort local network address
discovery.  Each definition mirrors one piece of the source; theorems
settle the specification claims about it.
-/

namespace ServePlaylists

/-- The three fixed CORS header (name, value) pairs sent by
`CorsRequestHandler.end_headers` (lines 21-23 of the source), in the
order the code sends them.  They are string literals in the code, hence
constant for the process lifetime. -/
def corsHeaders : List (String × String) :=
  [("Access-Control-Allow-Origin", "*"),
   ("Access-Control-Allow-Methods", "GET, OPTIONS"),
   ("Access-Control-Allow-Headers", "X-Requested-With, Content-Type")]

/-- An HTTP request as seen by the handler: method, path and request
headers (including a possible Origin header). -/
structure Request where
  method : String
  path : String
  reqHeaders : List (String × String)
deriving DecidableEq

/-- An HTTP response: status code, response headers in send order, body
bytes. -/
structure Response where
  status : Nat
  headers : List (String × String)
  body : List Nat
deriving DecidableEq

/-- The `end_headers` override of `CorsRequestHandler` (lines 20-24).
By the time the base machinery calls `end_headers`, all of its own
headers are buffered; the override appends the three CORS literals and
then defers to the superclass flush.  The handler state (`self`), in
particular the current request, is a parameter just as `self` is in the
source; the appended headers are fixed literals that do not consult it. -/
def end_headers (req : Request) (buffered : List (String × String)) :
    List (String × String) :=
  buffered ++ corsHeaders

/-- `CorsRequestHandler` handling one request: the underlying
`SimpleHTTPRequestHandler` machinery (the abstract parameter `base`)
chooses status, headers and body; every response path of the base class
calls `end_headers` exactly once before the body is sent, so the wrapped
response carries the base headers with the CORS headers appended. -/
def corsHandle (base : Request → Response) (req : Request) : Response :=
  let r := base req
  { r with headers := end_headers req r.headers }

/-- Spec-side description of the wrapped response (spec §8, claim C2):
status and body equal the underlying server's, and the headers are
exactly the underlying server's headers plus the three fixed CORS
headers and nothing else. -/
def specWrappedResponse (base : Request → Response) (req : Request) :
    Response :=
  { status := (base req).status
    headers := (base req).headers ++ corsHeaders
    body := (base req).body }

/-- Kind of filesystem object found at the resolved `--dir` path.
`Path.exists()` in the source is true for regular files as well as for
directories. -/
inductive PathKind
  | missing
  | file
  | dir
deriving DecidableEq

/-- `Path(args.dir).resolve().exists()`: true unless nothing is at the
path. -/
def pathExists : PathKind → Bool
  | .missing => false
  | .file => true
  | .dir => true

/-- The startup path of `main` (lines 36-42 and 67): after argument
parsing the resolved root is checked for existence; a missing path
raises `SystemExit` with a message (non-zero exit, before any socket is
created), otherwise execution proceeds to the `TCPServer` bind with the
resolved root as serving directory and the `--port` integer passed
through unchanged — `main` performs no range check on the port.
`Except.ok (root, port)` means execution reaches the bind with that
configuration; `Except.error msg` means the process exits non-zero
before binding. -/
def mainStartup (port : Int) (kind : PathKind) (root : String) :
    Except String (String × Int) :=
  if pathExists kind then Except.ok (root, port)
  else Except.error ("Directory not found: " ++ root)

/-- `_local_ips` (lines 44-65).  Both steps sit in their own
`try/except Exception: pass` block, so each step either yields a value
or contributes nothing: `resolved = none` models `gethostbyname_ex`
raising (step 1 contributes no addresses), `resolved = some addrs` the
returned address list, of which the code keeps those not starting with
`"127."`; `probe = none` models the UDP-connect probe raising,
`probe = some ip` the local endpoint read back, added when it is truthy
(non-empty) and does not start with `"127."`.  The accumulator is a
Python `set`, returned through `sorted`. -/
def local_ips (resolved : Option (List String)) (probe : Option String) :
    List String :=
  let s₁ : Finset String :=
    match resolved with
    | some addrs => (addrs.filter (fun ip => !ip.startsWith "127.")).toFinset
    | none => ∅
  let s₂ : Finset String :=
    match probe with
    | some ip => if ip.isEmpty || ip.startsWith "127." then ∅ else {ip}
    | none => ∅
  (s₁ ∪ s₂).sort (fun a b => a ≤ b)

/-- Outcome of `httpd.serve_forever()` (lines 75-78): it never returns
normally, so the serving phase ends either with `KeyboardInterrupt`
(the operator interrupt, caught by the code) or with some other
exception propagating out of `main`. -/
inductive ServeOutcome
  | interrupted
  | raised (msg : String)
deriving DecidableEq

/-- Observable outcome of the serving phase: lines printed, process
exit code, and whether the listening socket was closed. -/
structure ServeResult where
  printed : List String
  exitCode : Nat
  socketClosed : Bool
deriving DecidableEq

/-- The startup banner printed after a successful bind (lines 68-74):
the serving URL, the LAN URLs when discovery found any, and the
operator instruction line. -/
def banner (root host : String) (port : Int) (ips : List String) :
    List String :=
  ["Serving " ++ root ++ " at http://" ++ host ++ ":" ++ toString port ++ "/"]
    ++ (if ips.isEmpty then []
        else "Local network URLs:" ::
          ips.map (fun ip => "  http://" ++ ip ++ ":" ++ toString port ++ "/"))
    ++ ["Press Ctrl+C to stop."]

/-- The serving phase of `main` (lines 67-78).  The `with` statement
closes the listening socket on every way out of the block.
`serve_forever` is wrapped in `try ... except KeyboardInterrupt`, so an
interrupt prints the shutdown message and lets `main` return normally
(exit status 0), while any other exception propagates (non-zero exit of
the interpreter). -/
def runServer (o : ServeOutcome) (root host : String) (port : Int)
    (ips : List String) : ServeResult :=
  match o with
  | .interrupted =>
      { printed := banner root host port ips ++ ["\nShutting down..."]
        exitCode := 0
        socketClosed := true }
  | .raised _ =>
      { printed := banner root host port ips
        exitCode := 1
        socketClosed := true }

/-- C1: every response produced by the wrapped handler carries all three
fixed CORS headers with exactly the documented values, and the header
list is always the base server's headers with the one fixed literal
list `corsHeaders` appended, hence the injected set is constant for the
process lifetime. -/
theorem C1_cors_headers_on_every_response (base : Request → Response)
    (req : Request) :
    ("Access-Control-Allow-Origin", "*") ∈ (corsHandle base req).headers ∧
    ("Access-Control-Allow-Methods", "GET, OPTIONS")
      ∈ (corsHandle base req).headers ∧
    ("Access-Control-Allow-Headers", "X-Requested-With, Content-Type")
      ∈ (corsHandle base req).headers ∧
    (corsHandle base req).headers = (base req).headers ++ corsHeaders := by
  refine ⟨?_, ?_, ?_, rfl⟩ <;> simp [corsHandle, end_headers, corsHeaders]

/-- C2: the wrapped handler refines the underlying static file server:
the response status and body are exactly the base server's, and the
headers are exactly the base server's headers plus the three fixed CORS
headers and nothing else. -/
theorem C2_refines_base_server (base : Request → Response) (req : Request) :
    corsHandle base req = specWrappedResponse base req := rfl

/-- C7: a request with method OPTIONS still gets all three CORS headers;
`end_headers` runs on every response path regardless of the method. -/
theorem C7_options_has_cors (base : Request → Response) (req : Request)
    (h : req.method = "OPTIONS") :
    ∀ hv ∈ corsHeaders, hv ∈ (corsHandle base req).headers := by
  intro hv hmem
  simp only [corsHandle, end_headers, List.mem_append]
  exact Or.inr hmem

/-- Witness for C7 at a concrete OPTIONS request and a concrete base
response (SimpleHTTPRequestHandler answers OPTIONS with a 501 error
page, whose path also runs `end_headers`). -/
theorem C7_options_has_cors_witness :
    (Request.mk "OPTIONS" "/" []).method = "OPTIONS" ∧
    ∀ hv ∈ corsHeaders,
      hv ∈ (corsHandle
        (fun _ => Response.mk 501 [("Content-Type", "text/html;charset=utf-8")] [])
        (Request.mk "OPTIONS" "/" [])).headers :=
  ⟨rfl, C7_options_has_cors _ _ rfl⟩

/-- C10: the headers injected by `end_headers` do not depend on the
request: for any two requests the appended block is identical, the block
is the constant `corsHeaders`, and the only Access-Control-Allow-Origin
entry it contains has the value "*" — the request's Origin header is
never reflected. -/
theorem C10_injection_request_independent (req₁ req₂ : Request)
    (buf : List (String × String)) :
    end_headers req₁ buf = end_headers req₂ buf ∧
    (end_headers req₁ buf).drop buf.length = corsHeaders ∧
    ((end_headers req₁ buf).drop buf.length).filter
        (fun hv => hv.1 == "Access-Control-Allow-Origin")
      = [("Access-Control-Allow-Origin", "*")] := by
  refine ⟨rfl, ?_, ?_⟩
  · simp [end_headers]
  · simp [end_headers, corsHeaders]

/-- C4: a `--dir` argument whose resolved path does not exist makes
`main` raise `SystemExit` with a descriptive message — a non-zero exit
before the `TCPServer` bind is ever reached. -/
theorem C4_missing_dir_fails_before_bind (port : Int) (root : String) :
    mainStartup port PathKind.missing root
      = Except.error ("Directory not found: " ++ root) := rfl

/-- C9: the startup check rejects the resolved `--dir` path exactly when
nothing exists there; in particular an existing regular file passes the
`exists()` check and startup proceeds to bind with that file path as the
configured serving root. -/
theorem C9_dir_check_is_existence_only (port : Int) (root : String) :
    mainStartup port PathKind.file root = Except.ok (root, port) ∧
    ∀ kind, (∃ msg, mainStartup port kind root = Except.error msg)
      ↔ kind = PathKind.missing := by
  constructor
  · rfl
  · intro kind
    cases kind <;> simp [mainStartup, pathExists]

/-- Counterexample to C3 as stated: with an existing directory and
`--port 0`, startup does not fail fast — `main` has no port validation
and execution reaches the `TCPServer` bind with port 0 (which the OS
accepts, assigning an ephemeral port). -/
theorem C3_counterexample :
    mainStartup 0 PathKind.dir "/srv/playlists"
      = Except.ok ("/srv/playlists", 0) := rfl

/-- C3 amended: `main` performs no port-range validation; whenever the
resolved root exists, every integer `--port` value (0 included) is
passed unchanged to the `TCPServer` bind, and startup exits before the
bind only when the root is missing. -/
theorem C3_no_port_validation (port : Int) (kind : PathKind) (root : String)
    (h : pathExists kind = true) :
    mainStartup port kind root = Except.ok (root, port) := by
  simp [mainStartup, h]

/-- Witness for the amended C3 at port 0 and an existing directory. -/
theorem C3_no_port_validation_witness :
    pathExists PathKind.dir = true ∧
    mainStartup 0 PathKind.dir "/data" = Except.ok ("/data", 0) :=
  ⟨rfl, C3_no_port_validation 0 PathKind.dir "/data" rfl⟩

/-- C5: `_local_ips` is total over every combination of step outcomes
(the embedding is a total function, mirroring the two `try/except`
blocks that swallow every exception): a failed hostname resolution
contributes exactly as much as an empty resolution, a failed UDP probe
contributes exactly as much as a falsy endpoint, and when both steps
fail the result is the empty list. -/
theorem C5_discovery_never_raises :
    (∀ p, local_ips none p = local_ips (some []) p) ∧
    (∀ r, local_ips r none = local_ips r (some "")) ∧
    local_ips none none = [] := by
  refine ⟨?_, ?_, ?_⟩
  · intro p; cases p <;> simp [local_ips]
  · intro r
    have he : String.isEmpty "" = true := rfl
    cases r <;> simp [local_ips, he]
  · simp [local_ips]

/-- C6: on successful steps, `_local_ips` returns the sorted,
duplicate-free union of the hostname-resolved addresses that do not
start with "127." and the probe endpoint when it does not start with
"127."; every returned address is non-loopback and the list is sorted.
The probe endpoint is assumed non-empty (a real local endpoint string),
matching the code's truthiness test. -/
theorem C6_discovery_sorted_union (r : List String) (p : String)
    (hp : p.isEmpty = false) :
    List.Sorted (fun a b => a ≤ b) (local_ips (some r) (some p)) ∧
    (local_ips (some r) (some p)).Nodup ∧
    (∀ ip ∈ local_ips (some r) (some p), ip.startsWith "127." = false) ∧
    (∀ ip, ip ∈ local_ips (some r) (some p) ↔
      ((ip ∈ r ∧ ip.startsWith "127." = false) ∨
       (ip = p ∧ p.startsWith "127." = false))) := by
  have hmem : ∀ ip, ip ∈ local_ips (some r) (some p) ↔
      ((ip ∈ r ∧ ip.startsWith "127." = false) ∨
       (ip = p ∧ p.startsWith "127." = false)) := by
    intro ip
    simp only [local_ips, hp, Bool.false_or]
    cases hps : p.startsWith "127." <;>
      simp [Finset.mem_sort, Finset.mem_union, List.mem_toFinset,
        List.mem_filter, hps, Bool.not_eq_true']
  refine ⟨?_, ?_, ?_, hmem⟩
  · simp only [local_ips]
    exact Finset.sort_sorted _ _
  · simp only [local_ips]
    exact Finset.sort_nodup _ _
  · intro ip hip
    rcases (hmem ip).1 hip with ⟨_, h⟩ | ⟨he, h⟩
    · exact h
    · rw [he]; exact h

/-- Witness for C6 at a concrete resolution result (one LAN address,
one loopback address) and a concrete probe endpoint. -/
theorem C6_discovery_sorted_union_witness :
    ("10.0.0.2" : String).isEmpty = false ∧
    (List.Sorted (fun a b => a ≤ b)
        (local_ips (some ["192.168.1.5", "127.0.0.1"]) (some "10.0.0.2")) ∧
      (local_ips (some ["192.168.1.5", "127.0.0.1"]) (some "10.0.0.2")).Nodup ∧
      (∀ ip ∈ local_ips (some ["192.168.1.5", "127.0.0.1"]) (some "10.0.0.2"),
        ip.startsWith "127." = false) ∧
      (∀ ip,
        ip ∈ local_ips (some ["192.168.1.5", "127.0.0.1"]) (some "10.0.0.2") ↔
        ((ip ∈ ["192.168.1.5", "127.0.0.1"] ∧ ip.startsWith "127." = false) ∨
         (ip = "10.0.0.2" ∧
           ("10.0.0.2" : String).startsWith "127." = false)))) :=
  ⟨rfl, C6_discovery_sorted_union ["192.168.1.5", "127.0.0.1"] "10.0.0.2" rfl⟩

/-- C8: on an operator interrupt the serving phase prints the shutdown
message, closes the listening socket (the `with` block does so on every
exit path), and `main` returns normally, exit status 0; an interrupt is
the only outcome of the serve loop that yields the normal exit status,
so it is the only clean shutdown path after startup succeeds. -/
theorem C8_interrupt_clean_shutdown (root host : String) (port : Int)
    (ips : List String) :
    "\nShutting down..."
      ∈ (runServer ServeOutcome.interrupted root host port ips).printed ∧
    (runServer ServeOutcome.interrupted root host port ips).exitCode = 0 ∧
    (runServer ServeOutcome.interrupted root host port ips).socketClosed
      = true ∧
    (∀ o, (runServer o root host port ips).exitCode = 0
      ↔ o = ServeOutcome.interrupted) ∧
    (∀ o, (runServer o root host port ips).socketClosed = true) := by
  refine ⟨?_, rfl, rfl, ?_, ?_⟩
  · simp [runServer]
  · intro o; cases o <;> simp [runServer]
  · intro o; cases o <;> rfl

end ServePlaylists
